import Mathlib

/-!
Verification of the workflow-orchestration spec of the open_deep_research
repository against a shallow embedding of its Python source
(createPersonalityBlog.py, updateBlogGraph.py, updatePeopleBlogs.py).

External collaborators (search service, document loader, language model) are
modelled as function parameters, as the spec treats them as opaque interfaces.
Python values that may be a string or None are modelled as Option String;
operations that may raise are modelled in Except.
-/

namespace OpenDeepResearch

/-- A value held under a key of a Python search-result dict: the key may be
absent, present with the value None, or present with a string value. -/
inductive DictVal where
  | absent
  | vnone
  | vstr (s : String)
deriving DecidableEq

/-- One search result as returned by the search service: a dict read at the
keys title, url and content. -/
structure SearchResult where
  title : DictVal := .absent
  url : DictVal := .absent
  content : DictVal := .absent
deriving DecidableEq

/-- Python dict.get(key, default): an absent key gives the default string,
a key stored with None gives None, a string-valued key gives its string. -/
def DictVal.get : DictVal → String → Option String
  | .absent, d => some d
  | .vnone, _ => none
  | .vstr s, _ => some s

/-- Python truthiness of a string-or-None value: None and the empty string
are falsy, every other string is truthy. -/
def pyTruthy : Option String → Bool
  | none => false
  | some s => !(s == "")

/-- Python rendering of a string-or-None value inside an f-string: None is
rendered as the text None. -/
def pyStr : Option String → String
  | none => "None"
  | some s => s

/-- Python slicing x[:n] applied to a string-or-None value: slicing None
raises a TypeError, slicing a string keeps its first n characters. -/
def pySlice (x : Option String) (n : Nat) : Except String String :=
  match x with
  | none => .error "TypeError"
  | some s => .ok (s.take n)

/-- Python x or d on a string-or-None value x: None and the empty string
fall back to the default d. -/
def pyOr (x : Option String) (d : String) : String :=
  match x with
  | none => d
  | some s => if s = "" then d else s

/-- The content excerpt of createPersonalityBlog.format_search_results and
updatePeopleBlogs.format_search_results: the slice is guarded by a truthiness
test, so None or empty content yields the empty excerpt. -/
def contentPreviewGuarded (c : DictVal) : Except String String :=
  if pyTruthy (c.get "") then pySlice (c.get "") 500 else .ok ""

/-- The content excerpt of updateBlogGraph.format_search_results: the slice
result.get content-key default-empty, then [:500], with no truthiness guard. -/
def contentPreviewUnguarded (c : DictVal) : Except String String :=
  pySlice (c.get "") 500

/-- The guarded content excerpt as a plain string (it never raises). -/
def contentPreviewGuardedStr (c : DictVal) : String :=
  if pyTruthy (c.get "") then ((c.get "").getD "").take 500 else ""

/-- The per-result block of createPersonalityBlog.format_search_results,
including its RESULT index line. -/
def formatBlockCP (i : Nat) (r : SearchResult) : Except String String := do
  let preview ← contentPreviewGuarded r.content
  pure ("RESULT " ++ toString (i + 1) ++ ":\n" ++
        "Title: " ++ pyStr (r.title.get "No title") ++ "\n" ++
        "URL: " ++ pyStr (r.url.get "No URL") ++ "\n" ++
        "Content (excerpt): " ++ preview ++ "...\n")

/-- The per-result block of createPersonalityBlog.format_search_results as a
plain string (the guarded excerpt never raises). -/
def formatBlockCPStr (i : Nat) (r : SearchResult) : String :=
  "RESULT " ++ toString (i + 1) ++ ":\n" ++
  "Title: " ++ pyStr (r.title.get "No title") ++ "\n" ++
  "URL: " ++ pyStr (r.url.get "No URL") ++ "\n" ++
  "Content (excerpt): " ++ contentPreviewGuardedStr r.content ++ "...\n"

/-- The per-result block of updatePeopleBlogs.format_search_results. -/
def formatBlockUP (r : SearchResult) : Except String String := do
  let preview ← contentPreviewGuarded r.content
  pure ("Title: " ++ pyStr (r.title.get "No title") ++ "\n" ++
        "URL: " ++ pyStr (r.url.get "No URL") ++ "\n" ++
        "Content (excerpt): " ++ preview ++ "...\n")

/-- The per-result block of updatePeopleBlogs.format_search_results as a
plain string. -/
def formatBlockUPStr (r : SearchResult) : String :=
  "Title: " ++ pyStr (r.title.get "No title") ++ "\n" ++
  "URL: " ++ pyStr (r.url.get "No URL") ++ "\n" ++
  "Content (excerpt): " ++ contentPreviewGuardedStr r.content ++ "...\n"

/-- The per-result block of updateBlogGraph.format_search_results: its
excerpt slice is unguarded, so content stored as None raises a TypeError. -/
def formatBlockUB (r : SearchResult) : Except String String := do
  let preview ← contentPreviewUnguarded r.content
  pure ("Title: " ++ pyStr (r.title.get "No title") ++ "\n" ++
        "URL: " ++ pyStr (r.url.get "No URL") ++ "\n" ++
        "Content (excerpt): " ++ preview ++ "...\n")

/-- The per-result block of updateBlogGraph.format_search_results as a plain
string, defined when content is not None. -/
def formatBlockUBStr (r : SearchResult) : String :=
  "Title: " ++ pyStr (r.title.get "No title") ++ "\n" ++
  "URL: " ++ pyStr (r.url.get "No URL") ++ "\n" ++
  "Content (excerpt): " ++ ((r.content.get "").getD "").take 500 ++ "...\n"

/-- The for-loop of createPersonalityBlog.format_search_results, building the
formatted list with the running index i. -/
def formatBlocksCP (i : Nat) : List SearchResult → Except String (List String)
  | [] => .ok []
  | r :: rs => do
    let b ← formatBlockCP i r
    let bs ← formatBlocksCP (i + 1) rs
    pure (b :: bs)

/-- The plain-string form of the createPersonalityBlog block list. -/
def formatBlocksCPStr (i : Nat) : List SearchResult → List String
  | [] => []
  | r :: rs => formatBlockCPStr i r :: formatBlocksCPStr (i + 1) rs

/-- The for-loop of updatePeopleBlogs.format_search_results. -/
def formatBlocksUP : List SearchResult → Except String (List String)
  | [] => .ok []
  | r :: rs => do
    let b ← formatBlockUP r
    let bs ← formatBlocksUP rs
    pure (b :: bs)

/-- The for-loop of updateBlogGraph.format_search_results. -/
def formatBlocksUB : List SearchResult → Except String (List String)
  | [] => .ok []
  | r :: rs => do
    let b ← formatBlockUB r
    let bs ← formatBlocksUB rs
    pure (b :: bs)

/-- createPersonalityBlog.format_search_results: empty input yields the
no-results message; otherwise the blocks are joined by a blank line. -/
def format_search_results_cp (rs : List SearchResult) : Except String String :=
  if rs.isEmpty then .ok "No search results found."
  else do
    let bs ← formatBlocksCP 0 rs
    pure (String.intercalate "\n\n" bs)

/-- updatePeopleBlogs.format_search_results: empty input yields the
no-results message; otherwise the blocks are joined by newlines. -/
def format_search_results_up (rs : List SearchResult) : Except String String :=
  if rs.isEmpty then .ok "No search results found."
  else do
    let bs ← formatBlocksUP rs
    pure (String.intercalate "\n" bs)

/-- updateBlogGraph.format_search_results: empty input yields the no-results
message; otherwise the blocks are joined by newlines, and building a block
raises a TypeError when a result carries content stored as None. -/
def format_search_results_ub (rs : List SearchResult) : Except String String :=
  if rs.isEmpty then .ok "No search results found."
  else do
    let bs ← formatBlocksUB rs
    pure (String.intercalate "\n" bs)

/-- Python str.strip(): drop whitespace from both ends of the string. -/
def pyStrip (s : String) : String :=
  ⟨((s.data.dropWhile Char.isWhitespace).reverse.dropWhile Char.isWhitespace).reverse⟩

/-- Python str.lower(): lower-case every character. -/
def pyLower (s : String) : String :=
  ⟨s.data.map Char.toLower⟩

namespace UpdateBlogGraph

/-- The BlogUpdateState dataclass of updateBlogGraph.py. -/
structure BlogUpdateState where
  blog_url : String
  current_content : Option String := none
  summary : Option String := none
  suggestions : Option String := none
  search_queries : List String := []
  search_results : List SearchResult := []
  proposed_outline : Option String := none
  approved_outline : Option String := none
  new_content : Option String := none
  updated_blog : Option String := none
deriving DecidableEq

/-- The external input handed back to a suspended run on resumption: a Python
object that is either a string or something else. -/
inductive ResumeValue where
  | str (s : String)
  | other
deriving DecidableEq

/-- A langgraph Command as issued by human_feedback: the target node and the
partial state update, which here touches at most the approved_outline and
proposed_outline keys. -/
structure Command where
  goto : String
  approved_outline : Option String := none
  proposed_outline : Option String := none
deriving DecidableEq

/-- updateBlogGraph.human_feedback re-entered with the interrupt's external
input: an approve string advances to generate_new_content recording the
proposed outline (which fell back through Python or when empty or None);
anything else loops back to create_outline carrying the revision. -/
def human_feedback (state : BlogUpdateState) (feedback : ResumeValue) : Command :=
  let proposed_outline := pyOr state.proposed_outline "No outline was generated."
  match feedback with
  | .str s =>
    if pyLower (pyStrip s) = "approve" then
      { goto := "generate_new_content", approved_outline := some proposed_outline }
    else
      { goto := "create_outline", proposed_outline := some s }
  | .other =>
    { goto := "create_outline", proposed_outline := some "" }

/-- The amended C1 behavior, stated from the spec side: like the claim, but
the recorded outline falls back to the placeholder when proposed_outline is
None or the empty string, matching Python or-truthiness. -/
def human_feedback_amended (state : BlogUpdateState) (feedback : ResumeValue) : Command :=
  match feedback with
  | .str s =>
    if pyLower (pyStrip s) = "approve" then
      { goto := "generate_new_content",
        approved_outline :=
          some (if state.proposed_outline = none ∨ state.proposed_outline = some ""
                then "No outline was generated."
                else state.proposed_outline.getD "") }
    else
      { goto := "create_outline", proposed_outline := some s }
  | .other =>
    { goto := "create_outline", proposed_outline := some "" }

end UpdateBlogGraph

namespace CreatePersonalityBlog

/-- The WorkflowState enum of createPersonalityBlog.py. -/
inductive WorkflowState where
  | researching
  | outline_created
  | outline_approved
  | blog_generated
deriving DecidableEq

/-- The PersonalityBlogState dataclass of createPersonalityBlog.py. -/
structure PersonalityBlogState where
  person : String
  enneagram_type : String
  status : WorkflowState := .researching
  search_queries : List String := []
  search_results : List SearchResult := []
  person_research : Option String := none
  enneagram_research : Option String := none
  content_outline : Option String := none
  final_blog : Option String := none
  outline_approved : Bool := false
deriving DecidableEq

/-- createPersonalityBlog.check_outline_approval: the router of the
conditional edges out of create_content_outline. The Python function mutates
state.status in the approved branch, so it is modelled as returning both the
label and the post-call state. -/
def check_outline_approval (state : PersonalityBlogState) :
    String × PersonalityBlogState :=
  if state.outline_approved then
    ("approved", { state with status := WorkflowState.outline_approved })
  else
    ("not_approved", state)

/-- The label-to-target map declared for create_content_outline's conditional
edges in the createPersonalityBlog builder. -/
def outline_approval_label_map : List (String × String) :=
  [("approved", "generate_blog_content"), ("not_approved", "END")]

/-- createPersonalityBlog.update_and_approve_outline: replace the outline
when an update is given, then set the approval flag. -/
def update_and_approve_outline (state : PersonalityBlogState)
    (updated_outline : Option String) : PersonalityBlogState :=
  let state' :=
    match updated_outline with
    | some u => { state with content_outline := some u }
    | none => state
  { state' with outline_approved := true }

end CreatePersonalityBlog

/-- The search-web loop shared by createPersonalityBlog.search_web and
updatePeopleBlogs.search_web: invoke the search service on each query in
order, extending the local accumulator with every non-empty result list. -/
def gather (svc : String → List SearchResult) :
    List String → List SearchResult → List SearchResult
  | [], acc => acc
  | q :: qs, acc =>
    let results := svc q
    gather svc qs (if results.isEmpty then acc else acc ++ results)

/-- The same loop when the search service may raise: an error from the
service escapes the loop at once, as the Python body has no try-except. -/
def gatherE (svc : String → Except String (List SearchResult)) :
    List String → List SearchResult → Except String (List SearchResult)
  | [], acc => .ok acc
  | q :: qs, acc =>
    match svc q with
    | .error e => .error e
    | .ok results => gatherE svc qs (if results.isEmpty then acc else acc ++ results)

namespace CreatePersonalityBlog

/-- createPersonalityBlog.search_web with the search service as a parameter:
the freshly gathered list is assigned to state.search_results, replacing
whatever was there. -/
def search_web (svc : String → List SearchResult)
    (state : PersonalityBlogState) : PersonalityBlogState :=
  { state with search_results := gather svc state.search_queries [] }

/-- createPersonalityBlog.search_web when the search service may raise:
a service error propagates out of the handler. -/
def search_web_exc (svc : String → Except String (List SearchResult))
    (state : PersonalityBlogState) : Except String PersonalityBlogState :=
  match gatherE svc state.search_queries [] with
  | .error e => .error e
  | .ok rs => .ok { state with search_results := rs }

end CreatePersonalityBlog

namespace UpdatePeopleBlogs

/-- The BlogUpdateState dataclass of updatePeopleBlogs.py. -/
structure BlogUpdateState where
  blog_url : String
  current_content : Option String := none
  outline : Option String := none
  person : Option String := none
  enneagram_type : Option String := none
  suggestions : Option String := none
  search_queries : List String := []
  search_results : List SearchResult := []
  proposed_outline : Option String := none
deriving DecidableEq

/-- A document produced by the web loader. -/
structure Document where
  page_content : String
deriving DecidableEq

/-- The outcome of loader.load() for a url: it either raises an exception
carrying a message or yields a list of documents. -/
inductive LoadOutcome where
  | raises (e : String)
  | docs (ds : List Document)
deriving DecidableEq

/-- updatePeopleBlogs.fetch_blog_content with the web loader as a parameter:
the try-except turns a raised exception into an error placeholder, an empty
document list or an empty first page into a no-content placeholder, and
otherwise stores the first document's page content. -/
def fetch_blog_content (loader : String → LoadOutcome)
    (state : BlogUpdateState) : BlogUpdateState :=
  match loader state.blog_url with
  | .raises e =>
    { state with current_content := some ("Error loading blog: " ++ e) }
  | .docs [] =>
    { state with current_content := some "No content could be loaded from the blog URL." }
  | .docs (d :: _) =>
    if d.page_content = "" then
      { state with current_content := some "No content could be loaded from the blog URL." }
    else
      { state with current_content := some d.page_content }

/-- updatePeopleBlogs.search_web with the search service as a parameter. -/
def search_web (svc : String → List SearchResult)
    (state : BlogUpdateState) : BlogUpdateState :=
  { state with search_results := gather svc state.search_queries [] }

end UpdatePeopleBlogs

/-- A graph definition as assembled by the builders: registered node names,
unconditional edges, and conditional edges given as a source with its
label-to-target map. START and END are the distinguished names. -/
structure Graph where
  nodes : List String
  edges : List (String × String)
  conditional_edges : List (String × List (String × String)) := []
deriving DecidableEq

/-- The declared outgoing targets of a stage: targets of its unconditional
edges followed by the targets of its conditional label maps. -/
def outgoing (g : Graph) (v : String) : List String :=
  (g.edges.filter (fun e => e.1 = v)).map Prod.snd
    ++ ((g.conditional_edges.filter (fun c => c.1 = v)).map
          (fun c => c.2.map Prod.snd)).flatten

/-- Every stage name referenced by some edge of the graph. -/
def referenced (g : Graph) : List String :=
  g.edges.map Prod.fst ++ g.edges.map Prod.snd
    ++ g.conditional_edges.map Prod.fst
    ++ (g.conditional_edges.map (fun c => c.2.map Prod.snd)).flatten

/-- One breadth step of reachability: keep the visited stages and add every
declared target of a visited stage. -/
def expand (g : Graph) (vs : List String) : List String :=
  (vs ++ (vs.map (outgoing g)).flatten).dedup

/-- The stages reachable from START in at most n edge steps. -/
def reachList (g : Graph) : Nat → List String
  | 0 => ["START"]
  | n + 1 => expand g (reachList g n)

/-- Decidable reachability from START: iterating one more step than the
number of registered nodes saturates every path. -/
def reachableB (g : Graph) (v : String) : Bool :=
  v ∈ reachList g (g.nodes.length + 1)

/-- Modelled from the spec: validate() of §4.1 (the graph validation itself
is langgraph library code, not part of src/). It fails if a stage referenced
by an edge is neither START, END nor registered; if a registered stage has
zero outgoing edges; if START has no outgoing edge; or if a stage id is
registered twice. -/
def validate (g : Graph) : Bool :=
  ((referenced g).all fun v => v = "START" ∨ v = "END" ∨ v ∈ g.nodes)
    && (g.nodes.all fun v => !(outgoing g v).isEmpty)
    && !(outgoing g "START").isEmpty
    && g.nodes.Nodup

/-- The graph assembled by the createPersonalityBlog builder (source lines
326-357). The node check_outline_approval is also registered as a stage of
its own, reachable only through update_and_approve_outline, which no edge
reaches. -/
def personalityBlogGraph : Graph where
  nodes := ["generate_search_queries", "search_web", "organize_research",
            "create_content_outline", "check_outline_approval",
            "update_and_approve_outline", "generate_blog_content"]
  edges := [("START", "generate_search_queries"),
            ("generate_search_queries", "search_web"),
            ("search_web", "organize_research"),
            ("organize_research", "create_content_outline"),
            ("update_and_approve_outline", "check_outline_approval"),
            ("generate_blog_content", "END")]
  conditional_edges :=
    [("create_content_outline",
      [("approved", "generate_blog_content"), ("not_approved", "END")])]

/-- The graph assembled by the updateBlogGraph builder (source lines
241-264). The two Command destinations declared by human_feedback's return
annotation (source line 175) are recorded as its declared targets. -/
def updateBlogGraphG : Graph where
  nodes := ["fetch_blog_content", "analyze_content", "generate_search_queries",
            "search_web", "create_outline", "human_feedback",
            "generate_new_content", "update_blog"]
  edges := [("START", "fetch_blog_content"),
            ("fetch_blog_content", "analyze_content"),
            ("analyze_content", "generate_search_queries"),
            ("generate_search_queries", "search_web"),
            ("search_web", "create_outline"),
            ("create_outline", "human_feedback"),
            ("generate_new_content", "update_blog"),
            ("update_blog", "END")]
  conditional_edges :=
    [("human_feedback",
      [("create_outline", "create_outline"),
       ("generate_new_content", "generate_new_content")])]

/-- The outcome of a stage handler: a state update, or a Command naming the
next stage together with the state after merging the Command's update. -/
inductive NodeResult (σ : Type) where
  | update (s : σ)
  | command (goto : String) (s : σ)

/-- Modelled from the spec: the executor's view of a graph (§4.2; the
executor loop is langgraph library code, not part of src/). Each stage has a
handler, and either one unconditional edge or a router with its
label-to-target map, fixed external-collaborator outputs being baked into
the handlers. -/
structure ExecGraph (σ : Type) where
  handler : String → Option (σ → NodeResult σ)
  edge : String → Option String
  cond : String → Option ((σ → String) × List (String × String))

/-- Modelled from the spec: one executor step (§4.2). An update result
follows the stage's unconditional edge, or the router-selected label of its
conditional map; a Command result goes to the Command's target, ignoring
declared edges. -/
inductive Step {σ : Type} (g : ExecGraph σ) :
    String × σ → String × σ → Prop where
  | viaEdge (v : String) (s s' : σ) (h : σ → NodeResult σ) (w : String)
      (hh : g.handler v = some h) (hu : h s = .update s')
      (hc : g.cond v = none) (he : g.edge v = some w) :
      Step g (v, s) (w, s')
  | viaRouter (v : String) (s s' : σ) (h : σ → NodeResult σ)
      (r : σ → String) (m : List (String × String)) (w : String)
      (hh : g.handler v = some h) (hu : h s = .update s')
      (hc : g.cond v = some (r, m)) (hl : m.lookup (r s') = some w) :
      Step g (v, s) (w, s')
  | viaCommand (v : String) (s s' : σ) (h : σ → NodeResult σ) (w : String)
      (hh : g.handler v = some h) (hu : h s = .command w s') :
      Step g (v, s) (w, s')

/-- Modelled from the spec: a complete run (§4.2), recording the sequence of
visited stages and the final configuration; a run ends when the current
stage is END. -/
inductive RunSeq {σ : Type} (g : ExecGraph σ) :
    String × σ → List String → String × σ → Prop where
  | done (s : σ) : RunSeq g ("END", s) [] ("END", s)
  | step (c c' : String × σ) (l : List String) (cf : String × σ)
      (hne : c.1 ≠ "END") (hs : Step g c c') (hr : RunSeq g c' l cf) :
      RunSeq g c (c.1 :: l) cf

/-- A one-stage executor instance used to evaluate the executor model at a
concrete input: a single stage a whose handler issues a Command to END. -/
def demoGraph : ExecGraph Nat where
  handler := fun v => if v = "a" then some (fun n => .command "END" (n + 1)) else none
  edge := fun _ => none
  cond := fun _ => none

lemma contentPreviewGuarded_ok (c : DictVal) :
    contentPreviewGuarded c = .ok (contentPreviewGuardedStr c) := by
  cases c with
  | absent => rfl
  | vnone => rfl
  | vstr s =>
    by_cases hs : s = "" <;>
      simp [contentPreviewGuarded, contentPreviewGuardedStr, DictVal.get,
            pyTruthy, pySlice, hs]

lemma formatBlockCP_ok (i : Nat) (r : SearchResult) :
    formatBlockCP i r = .ok (formatBlockCPStr i r) := by
  unfold formatBlockCP formatBlockCPStr
  rw [contentPreviewGuarded_ok]
  rfl

lemma formatBlockUP_ok (r : SearchResult) :
    formatBlockUP r = .ok (formatBlockUPStr r) := by
  unfold formatBlockUP formatBlockUPStr
  rw [contentPreviewGuarded_ok]
  rfl

lemma formatBlockUB_ok (r : SearchResult) (h : r.content ≠ DictVal.vnone) :
    formatBlockUB r = .ok (formatBlockUBStr r) := by
  cases hc : r.content with
  | vnone => exact absurd hc h
  | absent =>
    simp [formatBlockUB, formatBlockUBStr, contentPreviewUnguarded, pySlice,
          DictVal.get, hc, Except.bind]
  | vstr s =>
    simp [formatBlockUB, formatBlockUBStr, contentPreviewUnguarded, pySlice,
          DictVal.get, hc, Except.bind]

lemma formatBlocksCP_ok : ∀ (rs : List SearchResult) (i : Nat),
    formatBlocksCP i rs = .ok (formatBlocksCPStr i rs) := by
  intro rs
  induction rs with
  | nil => intro i; rfl
  | cons r rs ih =>
    intro i
    unfold formatBlocksCP formatBlocksCPStr
    rw [formatBlockCP_ok, ih]
    rfl

lemma formatBlocksCPStr_length : ∀ (rs : List SearchResult) (i : Nat),
    (formatBlocksCPStr i rs).length = rs.length := by
  intro rs
  induction rs with
  | nil => intro i; rfl
  | cons r rs ih => intro i; simp [formatBlocksCPStr, ih]

lemma formatBlocksUP_ok : ∀ rs : List SearchResult,
    formatBlocksUP rs = .ok (rs.map formatBlockUPStr) := by
  intro rs
  induction rs with
  | nil => rfl
  | cons r rs ih =>
    unfold formatBlocksUP
    rw [formatBlockUP_ok, ih]
    rfl

lemma formatBlocksUB_ok : ∀ rs : List SearchResult,
    (∀ r ∈ rs, r.content ≠ DictVal.vnone) →
    formatBlocksUB rs = .ok (rs.map formatBlockUBStr) := by
  intro rs
  induction rs with
  | nil => intro _; rfl
  | cons r rs ih =>
    intro h
    unfold formatBlocksUB
    rw [formatBlockUB_ok r (h r (by simp)), ih (fun r' hr' => h r' (by simp [hr']))]
    rfl

/-- C10 counterexample: updateBlogGraph.format_search_results applied to a
single result whose content key holds None raises a TypeError (the slice
result.get content [:500] is unguarded there), so the claim of totality over
all three format_search_results versions fails. -/
theorem format_search_results_ub_raises_on_none_content :
    format_search_results_ub [{ content := DictVal.vnone }] = .error "TypeError" := by
  rfl

/-- C10 (amended): format_search_results is total over malformed collaborator
output in its createPersonalityBlog and updatePeopleBlogs versions, returning
the no-results message on the empty list and otherwise one block per result
in input order, with the content excerpt truncated via take 500; the
updateBlogGraph version is total as long as no result holds content stored
as None (there it raises a TypeError). -/
theorem format_search_results_total (rs : List SearchResult) :
    format_search_results_cp rs =
        .ok (if rs.isEmpty then "No search results found."
             else String.intercalate "\n\n" (formatBlocksCPStr 0 rs))
      ∧ (formatBlocksCPStr 0 rs).length = rs.length
      ∧ format_search_results_up rs =
        .ok (if rs.isEmpty then "No search results found."
             else String.intercalate "\n" (rs.map formatBlockUPStr))
      ∧ ((∀ r ∈ rs, r.content ≠ DictVal.vnone) →
        format_search_results_ub rs =
          .ok (if rs.isEmpty then "No search results found."
               else String.intercalate "\n" (rs.map formatBlockUBStr))) := by
  refine ⟨?_, formatBlocksCPStr_length rs 0, ?_, ?_⟩
  · unfold format_search_results_cp
    by_cases h : rs.isEmpty
    · simp [h]
    · simp only [h, if_neg]
      rw [formatBlocksCP_ok]
      rfl
  · unfold format_search_results_up
    by_cases h : rs.isEmpty
    · simp [h]
    · simp only [h, if_neg]
      rw [formatBlocksUP_ok]
      rfl
  · intro hc
    unfold format_search_results_ub
    by_cases h : rs.isEmpty
    · simp [h]
    · simp only [h, if_neg]
      rw [formatBlocksUB_ok rs hc]
      rfl

/-- Witness for C10: the updateBlogGraph formatter evaluated on one concrete
well-formed result, with the no-None-content hypothesis discharged. -/
theorem format_search_results_total_witness :
    format_search_results_ub
        [{ title := DictVal.vstr "t", url := DictVal.vstr "u",
           content := DictVal.vstr "hello" }] =
      .ok (if ([{ title := DictVal.vstr "t", url := DictVal.vstr "u",
                  content := DictVal.vstr "hello" }] : List SearchResult).isEmpty
           then "No search results found."
           else String.intercalate "\n"
             (([{ title := DictVal.vstr "t", url := DictVal.vstr "u",
                  content := DictVal.vstr "hello" }] : List SearchResult).map
                formatBlockUBStr)) :=
  (format_search_results_total _).2.2.2 (by decide)

/-- C1 counterexample: a run suspended at human_feedback whose
proposed_outline is the empty string, resumed with the input approve. The
claim says approved_outline is set to the current proposed_outline whenever
it is not None, but the code's Python or also replaces the empty string with
the placeholder. -/
theorem human_feedback_empty_outline_counterexample :
    (UpdateBlogGraph.human_feedback { blog_url := "u", proposed_outline := some "" }
        (UpdateBlogGraph.ResumeValue.str "approve")).approved_outline
        = some "No outline was generated."
      ∧ (some "No outline was generated." : Option String) ≠ some "" := by
  constructor
  · rfl
  · decide

/-- C1 (amended): resuming human_feedback with input I yields a Command; if
I is a string whose stripped lower-case form is approve, it targets
generate_new_content and records the current proposed_outline, falling back
to the placeholder when proposed_outline is None or the empty string;
otherwise it targets create_outline and sets proposed_outline to I when I is
a string and to the empty string otherwise. -/
theorem human_feedback_matches_amended :
    ∀ (s : UpdateBlogGraph.BlogUpdateState) (i : UpdateBlogGraph.ResumeValue),
      UpdateBlogGraph.human_feedback s i = UpdateBlogGraph.human_feedback_amended s i := by
  intro s i
  cases i with
  | other => rfl
  | str t =>
    simp only [UpdateBlogGraph.human_feedback, UpdateBlogGraph.human_feedback_amended]
    by_cases happ : pyLower (pyStrip t) = "approve"
    · simp only [happ, if_pos]
      cases hpo : s.proposed_outline with
      | none => simp [pyOr]
      | some t' =>
        by_cases ht' : t' = "" <;> simp [pyOr, ht']
    · simp [happ]

/-- C2: for every state, the router check_outline_approval returns a label
in the declared label set of create_content_outline's conditional edges,
approved exactly when outline_approved holds and not_approved otherwise, so
an undeclared-label (RouterContractViolation) outcome is impossible. -/
theorem check_outline_approval_label_in_declared_set :
    ∀ s : CreatePersonalityBlog.PersonalityBlogState,
      (CreatePersonalityBlog.check_outline_approval s).1
          ∈ CreatePersonalityBlog.outline_approval_label_map.map Prod.fst
        ∧ ((CreatePersonalityBlog.check_outline_approval s).1 = "approved"
            ↔ s.outline_approved = true)
        ∧ ((CreatePersonalityBlog.check_outline_approval s).1 = "not_approved"
            ↔ s.outline_approved = false) := by
  intro s
  by_cases h : s.outline_approved <;>
    simp [CreatePersonalityBlog.check_outline_approval,
          CreatePersonalityBlog.outline_approval_label_map, h]

/-- C7 counterexample: evaluating the router on a state whose outline is
approved but whose status is still researching changes the state, setting
status to outline_approved, so routers do not leave every field unchanged. -/
theorem check_outline_approval_mutates_status :
    ((CreatePersonalityBlog.check_outline_approval
        { person := "p", enneagram_type := "2", outline_approved := true }).2).status
        = CreatePersonalityBlog.WorkflowState.outline_approved
      ∧ (CreatePersonalityBlog.check_outline_approval
          { person := "p", enneagram_type := "2", outline_approved := true }).2
        ≠ { person := "p", enneagram_type := "2", outline_approved := true } := by
  constructor
  · rfl
  · decide

/-- C7 (amended): the router check_outline_approval leaves every field of
the state unchanged except status: status becomes outline_approved when the
outline_approved flag is set and is unchanged otherwise, and the flag itself
is only read. -/
theorem check_outline_approval_state_effect :
    ∀ s : CreatePersonalityBlog.PersonalityBlogState,
      ((CreatePersonalityBlog.check_outline_approval s).2).status
          = (if s.outline_approved
             then CreatePersonalityBlog.WorkflowState.outline_approved
             else s.status)
        ∧ ((CreatePersonalityBlog.check_outline_approval s).2).outline_approved
            = s.outline_approved
        ∧ ((CreatePersonalityBlog.check_outline_approval s).2).person = s.person
        ∧ ((CreatePersonalityBlog.check_outline_approval s).2).enneagram_type
            = s.enneagram_type
        ∧ ((CreatePersonalityBlog.check_outline_approval s).2).search_queries
            = s.search_queries
        ∧ ((CreatePersonalityBlog.check_outline_approval s).2).search_results
            = s.search_results
        ∧ ((CreatePersonalityBlog.check_outline_approval s).2).person_research
            = s.person_research
        ∧ ((CreatePersonalityBlog.check_outline_approval s).2).enneagram_research
            = s.enneagram_research
        ∧ ((CreatePersonalityBlog.check_outline_approval s).2).content_outline
            = s.content_outline
        ∧ ((CreatePersonalityBlog.check_outline_approval s).2).final_blog
            = s.final_blog := by
  intro s
  by_cases h : s.outline_approved <;>
    simp [CreatePersonalityBlog.check_outline_approval, h]

/-- C8: update_and_approve_outline is idempotent: applying it twice with the
same argument equals applying it once; afterwards outline_approved is true,
content_outline is the given outline or the original one when none is given,
and every other field is untouched. -/
theorem update_and_approve_outline_idempotent :
    ∀ (s : CreatePersonalityBlog.PersonalityBlogState) (u : Option String),
      CreatePersonalityBlog.update_and_approve_outline
          (CreatePersonalityBlog.update_and_approve_outline s u) u
        = CreatePersonalityBlog.update_and_approve_outline s u
      ∧ (CreatePersonalityBlog.update_and_approve_outline s u).outline_approved = true
      ∧ (CreatePersonalityBlog.update_and_approve_outline s u).content_outline
          = (match u with | some v => some v | none => s.content_outline)
      ∧ (CreatePersonalityBlog.update_and_approve_outline s u).person = s.person
      ∧ (CreatePersonalityBlog.update_and_approve_outline s u).enneagram_type
          = s.enneagram_type
      ∧ (CreatePersonalityBlog.update_and_approve_outline s u).status = s.status
      ∧ (CreatePersonalityBlog.update_and_approve_outline s u).search_queries
          = s.search_queries
      ∧ (CreatePersonalityBlog.update_and_approve_outline s u).search_results
          = s.search_results
      ∧ (CreatePersonalityBlog.update_and_approve_outline s u).person_research
          = s.person_research
      ∧ (CreatePersonalityBlog.update_and_approve_outline s u).enneagram_research
          = s.enneagram_research
      ∧ (CreatePersonalityBlog.update_and_approve_outline s u).final_blog
          = s.final_blog := by
  intro s u
  cases u <;> simp [CreatePersonalityBlog.update_and_approve_outline]

/-- C4 counterexample: a prior state holding one old search result, one
query, and a service returning one new result. After search_web the
search-results sequence is just the new result: it does not begin with the
prior entry, which has been overwritten. -/
theorem search_web_overwrites_counterexample :
    (CreatePersonalityBlog.search_web (fun _ => [{ title := DictVal.vstr "new" }])
        { person := "p", enneagram_type := "2", search_queries := ["q"],
          search_results := [{ title := DictVal.vstr "old" }] }).search_results
        = [{ title := DictVal.vstr "new" }]
      ∧ ([{ title := DictVal.vstr "new" }] : List SearchResult).head?
          ≠ some { title := DictVal.vstr "old" } := by
  constructor
  · rfl
  · decide

/-- C4 (amended): the search-results field is a replace field for search_web:
the post-stage value is the gathered results of the queries alone — two prior
states with the same queries end with the same search_results no matter what
search_results they started with — so prior entries are discarded, not
prepended. -/
theorem search_web_replaces_results :
    ∀ (svc : String → List SearchResult)
      (s s' : CreatePersonalityBlog.PersonalityBlogState),
      s.search_queries = s'.search_queries →
      (CreatePersonalityBlog.search_web svc s).search_results
          = (CreatePersonalityBlog.search_web svc s').search_results
        ∧ (CreatePersonalityBlog.search_web svc s).search_results
          = gather svc s.search_queries [] := by
  intro svc s s' h
  constructor <;> simp [CreatePersonalityBlog.search_web, h]

/-- Witness for C4: the two concrete prior states of the counterexample, one
with an old entry and one without, reach the same post-stage search_results. -/
theorem search_web_replaces_results_witness :
    (CreatePersonalityBlog.search_web (fun _ => [{ title := DictVal.vstr "new" }])
        { person := "p", enneagram_type := "2", search_queries := ["q"],
          search_results := [{ title := DictVal.vstr "old" }] }).search_results
      = (CreatePersonalityBlog.search_web (fun _ => [{ title := DictVal.vstr "new" }])
          { person := "p", enneagram_type := "2",
            search_queries := ["q"] }).search_results :=
  (search_web_replaces_results
    (fun _ => [{ title := DictVal.vstr "new" }])
    { person := "p", enneagram_type := "2", search_queries := ["q"],
      search_results := [{ title := DictVal.vstr "old" }] }
    { person := "p", enneagram_type := "2", search_queries := ["q"] } rfl).1

lemma gatherE_ok_of_all_ok (svc : String → Except String (List SearchResult)) :
    ∀ (qs : List String) (acc : List SearchResult),
      (∀ q ∈ qs, ∃ rs, svc q = .ok rs) →
      ∃ out, gatherE svc qs acc = .ok out := by
  intro qs
  induction qs with
  | nil => intro acc _; exact ⟨acc, rfl⟩
  | cons q qs ih =>
    intro acc h
    obtain ⟨rs, hrs⟩ := h q (by simp)
    have hrest := ih (if rs.isEmpty then acc else acc ++ rs)
      (fun q' hq' => h q' (by simp [hq']))
    simpa [gatherE, hrs] using hrest

lemma gatherE_error_at (svc : String → Except String (List SearchResult)) :
    ∀ (qs₁ : List String) (q : String) (qs₂ : List String)
      (acc : List SearchResult) (e : String),
      (∀ q' ∈ qs₁, ∃ rs, svc q' = .ok rs) → svc q = .error e →
      gatherE svc (qs₁ ++ q :: qs₂) acc = .error e := by
  intro qs₁
  induction qs₁ with
  | nil => intro q qs₂ acc e _ he; simp [gatherE, he]
  | cons q' qs₁ ih =>
    intro q qs₂ acc e h he
    obtain ⟨rs, hrs⟩ := h q' (by simp)
    simpa [gatherE, hrs] using
      ih q qs₂ (if rs.isEmpty then acc else acc ++ rs) e
        (fun x hx => h x (by simp [hx])) he

/-- C5 counterexample: a state with one query and a search service that
raises ExternalCollaboratorError. search_web propagates the error instead of
returning normally with a fallback value, since its body has no try-except. -/
theorem search_web_exc_error_counterexample :
    CreatePersonalityBlog.search_web_exc (fun _ => .error "ExternalCollaboratorError")
        { person := "p", enneagram_type := "2", search_queries := ["q"] }
      = .error "ExternalCollaboratorError" := by
  rfl

/-- C5 (amended): search_web does not absorb search-service errors. When
every query succeeds the handler returns normally; when the service raises on
a query whose predecessors all succeeded, the error propagates out of the
handler unchanged. -/
theorem search_web_error_propagation :
    ∀ (svc : String → Except String (List SearchResult))
      (s : CreatePersonalityBlog.PersonalityBlogState),
      ((∀ q ∈ s.search_queries, ∃ rs, svc q = .ok rs) →
        ∃ s', CreatePersonalityBlog.search_web_exc svc s = .ok s')
      ∧ (∀ (qs₁ : List String) (q : String) (qs₂ : List String) (e : String),
          s.search_queries = qs₁ ++ q :: qs₂ →
          (∀ q' ∈ qs₁, ∃ rs, svc q' = .ok rs) → svc q = .error e →
          CreatePersonalityBlog.search_web_exc svc s = .error e) := by
  intro svc s
  constructor
  · intro h
    obtain ⟨out, hout⟩ := gatherE_ok_of_all_ok svc s.search_queries [] h
    refine ⟨{ s with search_results := out }, ?_⟩
    simp [CreatePersonalityBlog.search_web_exc, hout]
  · intro qs₁ q qs₂ e hq h he
    have herr := gatherE_error_at svc qs₁ q qs₂ [] e h he
    rw [← hq] at herr
    simp [CreatePersonalityBlog.search_web_exc, herr]

/-- Witness for C5: a service succeeding on both queries makes search_web
return normally, and a service failing on the second query after a successful
first propagates the error. -/
theorem search_web_error_propagation_witness :
    (∃ s', CreatePersonalityBlog.search_web_exc (fun _ => .ok ([] : List SearchResult))
        { person := "p", enneagram_type := "2", search_queries := ["q1", "q2"] }
      = .ok s')
    ∧ CreatePersonalityBlog.search_web_exc
        (fun q => if q = "q1" then .ok [] else .error "boom")
        { person := "p", enneagram_type := "2", search_queries := ["q1", "q2"] }
      = .error "boom" := by
  constructor
  · exact (search_web_error_propagation (fun _ => .ok []) _).1
      (fun q _ => ⟨[], rfl⟩)
  · exact (search_web_error_propagation (fun q => if q = "q1" then .ok [] else .error "boom") _).2
      ["q1"] "q2" [] "boom" rfl
      (by
        intro q' hq'
        have hq1 : q' = "q1" := by simpa using hq'
        exact ⟨[], by simp [hq1]⟩)
      (by simp)

/-- C6: updatePeopleBlogs.fetch_blog_content always leaves a string in
current_content: a raised loader exception becomes the error placeholder
prefixed by the exception text, an empty document list or empty first page
becomes the no-content placeholder, and otherwise the first document's page
content is stored. -/
theorem fetch_blog_content_handles_all_outcomes :
    ∀ (loader : String → UpdatePeopleBlogs.LoadOutcome)
      (s : UpdatePeopleBlogs.BlogUpdateState),
      (UpdatePeopleBlogs.fetch_blog_content loader s).current_content ≠ none
      ∧ (∀ e, loader s.blog_url = .raises e →
          (UpdatePeopleBlogs.fetch_blog_content loader s).current_content
            = some ("Error loading blog: " ++ e))
      ∧ (loader s.blog_url = .docs [] →
          (UpdatePeopleBlogs.fetch_blog_content loader s).current_content
            = some "No content could be loaded from the blog URL.")
      ∧ (∀ d ds, loader s.blog_url = .docs (d :: ds) → d.page_content = "" →
          (UpdatePeopleBlogs.fetch_blog_content loader s).current_content
            = some "No content could be loaded from the blog URL.")
      ∧ (∀ d ds, loader s.blog_url = .docs (d :: ds) → d.page_content ≠ "" →
          (UpdatePeopleBlogs.fetch_blog_content loader s).current_content
            = some d.page_content) := by
  intro loader s
  cases hl : loader s.blog_url with
  | raises e => simp [UpdatePeopleBlogs.fetch_blog_content, hl]
  | docs ds =>
    cases ds with
    | nil => simp [UpdatePeopleBlogs.fetch_blog_content, hl]
    | cons d ds' =>
      by_cases hpc : d.page_content = "" <;>
        simp_all [UpdatePeopleBlogs.fetch_blog_content, hl, hpc]

/-- Witness for C6: a loader raising an exception with message boom yields
the error placeholder carrying that message. -/
theorem fetch_blog_content_handles_all_outcomes_witness :
    (UpdatePeopleBlogs.fetch_blog_content (fun _ => .raises "boom")
        { blog_url := "u" }).current_content
      = some ("Error loading blog: " ++ "boom") :=
  (fetch_blog_content_handles_all_outcomes (fun _ => .raises "boom")
    { blog_url := "u" }).2.1 "boom" rfl

lemma mem_outgoing_referenced {g : Graph} {u v : String}
    (h : v ∈ outgoing g u) : v ∈ referenced g := by
  unfold outgoing at h
  unfold referenced
  rcases List.mem_append.1 h with h1 | h2
  · obtain ⟨e, he, rfl⟩ := List.mem_map.1 h1
    have hmem : e ∈ g.edges := List.mem_of_mem_filter he
    have hB : e.2 ∈ g.edges.map Prod.snd := List.mem_map.2 ⟨e, hmem, rfl⟩
    exact List.mem_append_left _ (List.mem_append_left _ (List.mem_append_right _ hB))
  · obtain ⟨l, hl, hvl⟩ := List.mem_flatten.1 h2
    obtain ⟨c, hc, rfl⟩ := List.mem_map.1 hl
    have hcmem : c ∈ g.conditional_edges := List.mem_of_mem_filter hc
    have hD : v ∈ (g.conditional_edges.map (fun c => c.2.map Prod.snd)).flatten :=
      List.mem_flatten.2 ⟨c.2.map Prod.snd, List.mem_map.2 ⟨c, hcmem, rfl⟩, hvl⟩
    exact List.mem_append_right _ hD

lemma reach_origin {g : Graph} : ∀ (n : Nat) (v : String),
    v ∈ reachList g n → v = "START" ∨ ∃ u, v ∈ outgoing g u := by
  intro n
  induction n with
  | zero => intro v hv; left; simpa [reachList] using hv
  | succ n ih =>
    intro v hv
    have hv' : v ∈ reachList g n ∨ ∃ u ∈ reachList g n, v ∈ outgoing g u := by
      simpa [reachList, expand] using hv
    rcases hv' with h1 | ⟨u, -, hvl⟩
    · exact ih v h1
    · exact Or.inr ⟨u, hvl⟩

/-- C3: against the spec-modelled validate (the validator itself is langgraph
library code, not in src/): in every validated graph, every stage reachable
from START other than END has at least one declared outgoing edge, and a
graph with a reachable non-END zero-out-degree stage is rejected. -/
theorem validated_reachable_has_outgoing :
    ∀ (g : Graph) (v : String),
      reachableB g v = true → v ≠ "END" →
      (validate g = true → outgoing g v ≠ [])
      ∧ (outgoing g v = [] → validate g = false) := by
  intro g v hreach hne
  have horig : v = "START" ∨ ∃ u, v ∈ outgoing g u :=
    reach_origin (g.nodes.length + 1) v (by simpa [reachableB] using hreach)
  have hmain : validate g = true → outgoing g v ≠ [] := by
    intro hval hout
    simp only [validate, Bool.and_eq_true] at hval
    obtain ⟨⟨⟨href, hnodes⟩, hstart⟩, -⟩ := hval
    rcases horig with rfl | ⟨u, hu⟩
    · rw [hout] at hstart; simp at hstart
    · have hv : v ∈ referenced g := mem_outgoing_referenced hu
      have hcase : v = "START" ∨ v = "END" ∨ v ∈ g.nodes := by
        have := List.all_eq_true.mp href v hv
        simpa using this
      rcases hcase with rfl | rfl | hmem
      · rw [hout] at hstart; simp at hstart
      · exact hne rfl
      · have := List.all_eq_true.mp hnodes v hmem
        rw [hout] at this; simp at this
  refine ⟨hmain, fun hout => ?_⟩
  cases hvb : validate g
  · rfl
  · exact absurd hout (hmain hvb)

/-- Witness for C3: the updateBlogGraph graph passes the modelled validation,
human_feedback is reachable from START, and it indeed has declared outgoing
targets (the two Command destinations of its return annotation). -/
theorem validated_reachable_has_outgoing_witness :
    validate updateBlogGraphG = true
    ∧ reachableB updateBlogGraphG "human_feedback" = true
    ∧ outgoing updateBlogGraphG "human_feedback" ≠ [] := by
  refine ⟨by decide, by decide, ?_⟩
  exact (validated_reachable_has_outgoing updateBlogGraphG "human_feedback"
    (by decide) (by decide)).1 (by decide)

lemma Step.deterministic {σ : Type} {g : ExecGraph σ} {c c₁ c₂ : String × σ}
    (h1 : Step g c c₁) (h2 : Step g c c₂) : c₁ = c₂ := by
  cases h1 with
  | viaEdge v s s' h w hh hu hc he =>
    cases h2 with
    | viaEdge v2 s2 s2' h2' w2 hh2 hu2 hc2 he2 =>
      rw [hh] at hh2; injection hh2 with hfun; subst hfun
      rw [hu] at hu2; injection hu2 with hs; subst hs
      rw [he] at he2; injection he2 with hw; subst hw
      rfl
    | viaRouter v2 s2 s2' h2' r m w2 hh2 hu2 hc2 hl2 =>
      rw [hc] at hc2; exact absurd hc2 (by simp)
    | viaCommand v2 s2 s2' h2' w2 hh2 hu2 =>
      rw [hh] at hh2; injection hh2 with hfun; subst hfun
      rw [hu] at hu2; exact absurd hu2 (by simp)
  | viaRouter v s s' h r m w hh hu hc hl =>
    cases h2 with
    | viaEdge v2 s2 s2' h2' w2 hh2 hu2 hc2 he2 =>
      rw [hc] at hc2; exact absurd hc2 (by simp)
    | viaRouter v2 s2 s2' h2' r2 m2 w2 hh2 hu2 hc2 hl2 =>
      rw [hh] at hh2; injection hh2 with hfun; subst hfun
      rw [hu] at hu2; injection hu2 with hs; subst hs
      rw [hc] at hc2; injection hc2 with hpair
      injection hpair with hr hm; subst hr; subst hm
      rw [hl] at hl2; injection hl2 with hw; subst hw
      rfl
    | viaCommand v2 s2 s2' h2' w2 hh2 hu2 =>
      rw [hh] at hh2; injection hh2 with hfun; subst hfun
      rw [hu] at hu2; exact absurd hu2 (by simp)
  | viaCommand v s s' h w hh hu =>
    cases h2 with
    | viaEdge v2 s2 s2' h2' w2 hh2 hu2 hc2 he2 =>
      rw [hh] at hh2; injection hh2 with hfun; subst hfun
      rw [hu] at hu2; exact absurd hu2 (by simp)
    | viaRouter v2 s2 s2' h2' r2 m2 w2 hh2 hu2 hc2 hl2 =>
      rw [hh] at hh2; injection hh2 with hfun; subst hfun
      rw [hu] at hu2; exact absurd hu2 (by simp)
    | viaCommand v2 s2 s2' h2' w2 hh2 hu2 =>
      rw [hh] at hh2; injection hh2 with hfun; subst hfun
      rw [hu] at hu2; injection hu2 with hw hs; subst hw; subst hs
      rfl

/-- C9: against the spec-modelled executor (the executor loop is langgraph
library code, not in src/): with the graph and the collaborator outputs baked
into the handlers fixed, any two complete runs from the same initial
configuration visit the same sequence of stages and end in the same final
state, and every transition into a stage is justified by a declared
unconditional edge, a router-selected label of a declared conditional map, or
a handler-issued Command naming it. -/
theorem executor_deterministic :
    ∀ (σ : Type) (g : ExecGraph σ),
      (∀ (c : String × σ) (l₁ l₂ : List String) (cf₁ cf₂ : String × σ),
        RunSeq g c l₁ cf₁ → RunSeq g c l₂ cf₂ → l₁ = l₂ ∧ cf₁ = cf₂)
      ∧ (∀ (v : String) (s : σ) (w : String) (s' : σ),
          Step g (v, s) (w, s') →
          g.edge v = some w
          ∨ (∃ r m, g.cond v = some (r, m) ∧ m.lookup (r s') = some w)
          ∨ (∃ h, g.handler v = some h ∧ h s = NodeResult.command w s')) := by
  intro σ g
  constructor
  · intro c l₁ l₂ cf₁ cf₂ h1
    induction h1 generalizing l₂ cf₂ with
    | done s =>
      intro h2
      cases h2 with
      | done => exact ⟨rfl, rfl⟩
      | step c c' l cf hne hs hr => exact absurd rfl hne
    | step c c' l cf hne hs hr ih =>
      intro h2
      cases h2 with
      | done => exact absurd rfl hne
      | step _ c'' l' _ hne' hs' hr' =>
        obtain rfl : c' = c'' := Step.deterministic hs hs'
        obtain ⟨hl, hcf⟩ := ih l' cf₂ hr'
        exact ⟨by rw [hl], hcf⟩
  · intro v s w s' hstep
    cases hstep with
    | viaEdge v s s' h w hh hu hc he => exact Or.inl he
    | viaRouter v s s' h r m w hh hu hc hl => exact Or.inr (Or.inl ⟨r, m, hc, hl⟩)
    | viaCommand v s s' h w hh hu => exact Or.inr (Or.inr ⟨h, hh, hu⟩)

/-- Witness for C9: two copies of the one-stage demo run produce equal stage
sequences and final configurations, and its single transition is justified by
the handler-issued Command. -/
theorem executor_deterministic_witness :
    (["a"] : List String) = ["a"]
    ∧ (("END", 1) : String × Nat) = ("END", 1)
    ∧ (demoGraph.edge "a" = some "END"
       ∨ (∃ r m, demoGraph.cond "a" = some (r, m) ∧ m.lookup (r 1) = some "END")
       ∨ (∃ h, demoGraph.handler "a" = some h
            ∧ h 0 = NodeResult.command "END" 1)) := by
  have hstep : Step demoGraph ("a", 0) ("END", 1) :=
    Step.viaCommand "a" 0 1 (fun n => NodeResult.command "END" (n + 1)) "END" rfl rfl
  have hrun : RunSeq demoGraph ("a", 0) ["a"] ("END", 1) :=
    RunSeq.step ("a", 0) ("END", 1) [] ("END", 1) (by decide) hstep (RunSeq.done 1)
  have hd := (executor_deterministic Nat demoGraph).1 ("a", 0) ["a"] ["a"]
    ("END", 1) ("END", 1) hrun hrun
  exact ⟨hd.1, hd.2, (executor_deterministic Nat demoGraph).2 "a" 0 "END" 1 hstep⟩

end OpenDeepResearch
